import Mathlib

/-!
Shallow embedding of the client-side UI layer of the repository
`pymongo-orm-fastapi-next-template`: the `ItemsListHeader` component
(search text state, create-modal state, event handlers) and the
`NavUser` component (stateless rendering of a user's avatar, name and
email), together with theorems verifying the specification's claims
about them.

Event handlers are embedded as pure functions from the component's
local state (and inputs) to a new state plus the list of arguments
passed to the optional `onSearch` callback during the handler's run.
Invoking the callback when it is absent would be a JavaScript
`TypeError`; that possibility is modelled with `Except Fault`, so that
the guard `if (onSearch)` in the source is what makes the handlers
fault-free.
-/

namespace ItemsUI

/-- A JavaScript runtime fault; the only one reachable in this scope
would be calling the absent `onSearch` prop as a function. -/
inductive Fault where
  | notAFunction
deriving DecidableEq, Repr

/-- The local view state owned by `ItemsListHeader`: the two `useState`
hooks `searchQuery` and `isCreateModalOpen`. -/
structure HeaderState where
  searchQuery : String
  isCreateModalOpen : Bool
deriving DecidableEq, Repr

/-- The only field of `React.KeyboardEvent` read by the source. -/
structure KeyboardEvent where
  key : String
deriving DecidableEq, Repr

/-- The props interface `ItemsListHeaderProps`. The presence of the
optional `onSearch` callback is recorded as a `Bool`; the handler
functions below take it separately. -/
structure ItemsListHeaderProps where
  onSearch : Bool
  title : Option String
  initialSearchQuery : Option String
  description : Option String
deriving DecidableEq, Repr

/-- The URL search parameters, as the ordered key/value pairs of the
query string; `get` returns the first value bound to a key, as
`URLSearchParams.get` does. -/
structure SearchParams where
  pairs : List (String × String)
deriving DecidableEq, Repr

/-- `searchParams.get(key)`: first value for `key`, or none. -/
def SearchParams.get (p : SearchParams) (key : String) : Option String :=
  (p.pairs.find? (fun kv => kv.1 == key)).map (fun kv => kv.2)

/-- The initial local state of `ItemsListHeader`:
`useState(searchParams.get("q") ?? "")` and `useState(false)`. The
props are received but play no part in the initial state (the declared
`initialSearchQuery` prop is never destructured or read). -/
def initialState (_props : ItemsListHeaderProps) (params : SearchParams) :
    HeaderState :=
  { searchQuery := (params.get "q").getD ""
    isCreateModalOpen := false }

/-- Semantics of the JavaScript call `onSearch(arg)`: a `TypeError`
when the prop is absent, otherwise one recorded invocation. -/
def callOnSearch (onSearch : Bool) (arg : String) :
    Except Fault (List String) :=
  if onSearch then Except.ok [arg] else Except.error Fault.notAFunction

/-- `handleSearch`: `if (onSearch) { onSearch(searchQuery) }`. The
state is not modified. -/
def handleSearch (onSearch : Bool) (s : HeaderState) :
    Except Fault (HeaderState × List String) :=
  if onSearch then
    (callOnSearch onSearch s.searchQuery).map (fun effs => (s, effs))
  else
    Except.ok (s, [])

/-- `handleClearSearch`: `setSearchQuery("")`, then
`if (onSearch) { onSearch("") }`. -/
def handleClearSearch (onSearch : Bool) (s : HeaderState) :
    Except Fault (HeaderState × List String) :=
  let s1 := { s with searchQuery := "" }
  if onSearch then
    (callOnSearch onSearch "").map (fun effs => (s1, effs))
  else
    Except.ok (s1, [])

/-- `handleKeyDown`: `if (e.key === "Enter") { handleSearch() }`. -/
def handleKeyDown (onSearch : Bool) (s : HeaderState) (e : KeyboardEvent) :
    Except Fault (HeaderState × List String) :=
  if e.key == "Enter" then handleSearch onSearch s else Except.ok (s, [])

/-- The text-change handler: the raw state setter `setSearchQuery`
passed to the header element as its `onSeachQuery` prop. It performs a
local state update and nothing else. -/
def onSeachQuery (s : HeaderState) (value : String) :
    HeaderState × List String :=
  ({ s with searchQuery := value }, [])

/-- The value displayed in the search field: the `searchQuery` state,
wired as `searchQuery={searchQuery}`. -/
def displayedSearchValue (s : HeaderState) : String :=
  s.searchQuery

/-- Modelled from the spec: the create trigger lives inside the
external `ActionHeader` element (not part of this repository), which
receives the raw setter `setIsCreateModalOpen`; per the spec, activating
the create trigger opens the create-item dialog, i.e. invokes that
setter with `true`. -/
def createTriggerActivate (s : HeaderState) : HeaderState :=
  { s with isCreateModalOpen := true }

/-- The modal's close action: `onClose={() => setIsCreateModalOpen(false)}`. -/
def modalClose (s : HeaderState) : HeaderState :=
  { s with isCreateModalOpen := false }

/-- The discrete user-input events the `ItemsListHeader` reacts to. -/
inductive HeaderEvent where
  | textChange (value : String)
  | keyDown (e : KeyboardEvent)
  | searchTrigger
  | clearSearch
  | createTrigger
  | dialogClose
deriving DecidableEq, Repr

/-- One step of the `ItemsListHeader` component: dispatch a user-input
event to the corresponding handler. -/
def stepEvent (onSearch : Bool) (ev : HeaderEvent) (s : HeaderState) :
    Except Fault (HeaderState × List String) :=
  match ev with
  | .textChange v => Except.ok (onSeachQuery s v)
  | .keyDown e => handleKeyDown onSearch s e
  | .searchTrigger => handleSearch onSearch s
  | .clearSearch => handleClearSearch onSearch s
  | .createTrigger => Except.ok (createTriggerActivate s, [])
  | .dialogClose => Except.ok (modalClose s, [])

/-- The `user` prop of `NavUser`. -/
structure User where
  name : String
  email : String
  avatar : String
deriving DecidableEq, Repr

/-- The avatar element as rendered by `NavUser`: an image with a source
and alternative text, plus a fallback glyph. -/
structure AvatarSpec where
  src : String
  alt : String
  fallback : String
deriving DecidableEq, Repr

/-- Modelled from the spec: the avatar element of the UI library
(outside this repository) displays the image when its source loads and
the fallback text otherwise. -/
def AvatarSpec.displayed (a : AvatarSpec) (imageLoads : Bool) : String :=
  if imageLoads then a.src else a.fallback

/-- The output rendered by `NavUser`: the avatar element and the two
text spans. -/
structure NavUserRender where
  avatar : AvatarSpec
  nameText : String
  emailText : String
deriving DecidableEq, Repr

/-- `NavUser`: renders an `AvatarImage` with `src={user.avatar}` and
`alt={user.name}`, an `AvatarFallback` with text `"CN"`, and spans with
the user's name and email. -/
def NavUser (user : User) : NavUserRender :=
  { avatar := { src := user.avatar, alt := user.name, fallback := "CN" }
    nameText := user.name
    emailText := user.email }

/-- C1: for every current search text, if an `onSearch` callback is
supplied, the key-down handler applied to an event whose key is
`"Enter"` invokes `onSearch` exactly once, with the current search text
as its argument. -/
theorem enter_invokes_onSearch_once_with_query (s : HeaderState)
    (e : KeyboardEvent) (h : e.key = "Enter") :
    handleKeyDown true s e = Except.ok (s, [s.searchQuery]) := by
  simp [handleKeyDown, h, handleSearch, callOnSearch, Except.map]

/-- Witness for C1 at search text `"foo"`: pressing Enter invokes the
callback exactly once with `"foo"`. -/
theorem enter_invokes_onSearch_once_with_query_check :
    (KeyboardEvent.mk "Enter").key = "Enter" ∧
    handleKeyDown true (HeaderState.mk "foo" false) (KeyboardEvent.mk "Enter")
      = Except.ok (HeaderState.mk "foo" false, ["foo"]) :=
  ⟨rfl, enter_invokes_onSearch_once_with_query (HeaderState.mk "foo" false)
    (KeyboardEvent.mk "Enter") rfl⟩

/-- C2: from every prior state, the clear-search handler resets
`searchQuery` to `""` (leaving the modal state alone), and invokes the
callback exactly once with `""` precisely when one is supplied. -/
theorem clearSearch_resets_and_calls_once (onSearch : Bool)
    (s : HeaderState) :
    handleClearSearch onSearch s =
      Except.ok ({ s with searchQuery := "" },
        if onSearch then [""] else []) := by
  cases onSearch <;>
    simp [handleClearSearch, callOnSearch, Except.map]

/-- C3: with no `onSearch` callback supplied, pressing Enter (any key,
in fact), the explicit search trigger and the clear action all return
normally — no fault is raised — and record zero callback invocations. -/
theorem no_callback_is_guarded_noop (s : HeaderState) (e : KeyboardEvent) :
    handleKeyDown false s e = Except.ok (s, []) ∧
    handleSearch false s = Except.ok (s, []) ∧
    handleClearSearch false s =
      Except.ok ({ s with searchQuery := "" }, []) := by
  refine ⟨?_, ?_, ?_⟩
  · by_cases h : e.key = "Enter" <;>
      simp [handleKeyDown, h, handleSearch]
  · simp [handleSearch]
  · simp [handleClearSearch]

/-- C4: the initial search text equals the value of the `q` query
parameter when present and `""` when absent, for any props. -/
theorem initial_search_matches_q_param (props : ItemsListHeaderProps)
    (params : SearchParams) (v : String) :
    (params.get "q" = some v →
      (initialState props params).searchQuery = v) ∧
    (params.get "q" = none →
      (initialState props params).searchQuery = "") := by
  constructor <;> intro h <;> simp [initialState, h]

/-- Witness for C4: the query string `?q=widget` yields initial search
text `"widget"`. -/
theorem initial_search_matches_q_param_check :
    (SearchParams.mk [("q", "widget")]).get "q" = some "widget" ∧
    (initialState (ItemsListHeaderProps.mk false none none none)
      (SearchParams.mk [("q", "widget")])).searchQuery = "widget" :=
  ⟨rfl, (initial_search_matches_q_param
      (ItemsListHeaderProps.mk false none none none)
      (SearchParams.mk [("q", "widget")]) "widget").1 rfl⟩

/-- C5: the modal-open state starts out `false`; activating the create
trigger sets it to `true` and the modal's close action sets it back to
`false`, from any prior state. -/
theorem modal_open_close_toggle (props : ItemsListHeaderProps)
    (params : SearchParams) (s : HeaderState) :
    (initialState props params).isCreateModalOpen = false ∧
    (createTriggerActivate s).isCreateModalOpen = true ∧
    (modalClose s).isCreateModalOpen = false :=
  ⟨rfl, rfl, rfl⟩

/-- C6: the text-change handler sets `searchQuery` to the typed value,
leaves the modal state unchanged, invokes no callback, and the value
then displayed in the field equals the typed value. -/
theorem textChange_updates_local_state_only (s : HeaderState)
    (value : String) :
    (onSeachQuery s value).1.searchQuery = value ∧
    (onSeachQuery s value).1.isCreateModalOpen = s.isCreateModalOpen ∧
    (onSeachQuery s value).2 = [] ∧
    displayedSearchValue (onSeachQuery s value).1 = value :=
  ⟨rfl, rfl, rfl, rfl⟩

/-- C7: every operation of the items list header is total: for every
event, every state and either presence of the callback, the dispatched
handler returns normally — the fault branch is unreachable. -/
theorem every_event_returns_normally (onSearch : Bool) (ev : HeaderEvent)
    (s : HeaderState) :
    ∃ out, stepEvent onSearch ev s = Except.ok out := by
  cases ev with
  | textChange v => exact ⟨_, rfl⟩
  | keyDown e =>
      by_cases h : e.key = "Enter" <;> cases onSearch <;>
        simp [stepEvent, handleKeyDown, h, handleSearch, callOnSearch,
          Except.map]
  | searchTrigger =>
      cases onSearch <;>
        simp [stepEvent, handleSearch, callOnSearch, Except.map]
  | clearSearch =>
      cases onSearch <;>
        simp [stepEvent, handleClearSearch, callOnSearch, Except.map]
  | createTrigger => exact ⟨_, rfl⟩
  | dialogClose => exact ⟨_, rfl⟩

/-- C8: `NavUser` renders the user's name text, email text and an
avatar image whose source is the user's avatar string; when the image
does not load, the displayed fallback text is `"CN"`. -/
theorem navUser_renders_user_fields (u : User) :
    (NavUser u).nameText = u.name ∧
    (NavUser u).emailText = u.email ∧
    (NavUser u).avatar.src = u.avatar ∧
    (NavUser u).avatar.displayed false = "CN" :=
  ⟨rfl, rfl, rfl, rfl⟩

/-- C9: the declared `initialSearchQuery` prop is ignored: the initial
state is the same for any two prop records and is determined solely by
the `q` parameter (or `""` when absent). -/
theorem initialSearchQuery_prop_is_ignored (p1 p2 : ItemsListHeaderProps)
    (params : SearchParams) :
    initialState p1 params = initialState p2 params ∧
    (initialState p1 params).searchQuery = (params.get "q").getD "" :=
  ⟨rfl, rfl⟩

/-- C10: a key-down whose key is not `"Enter"` invokes no callback and
changes neither state field; and in every case — Enter included — the
key-down handler leaves the state (so in particular the search text)
unchanged. -/
theorem keyDown_frame_conditions (onSearch : Bool) (s : HeaderState)
    (e : KeyboardEvent) :
    (e.key ≠ "Enter" → handleKeyDown onSearch s e = Except.ok (s, [])) ∧
    (handleKeyDown onSearch s e = Except.ok (s, [s.searchQuery]) ∨
      handleKeyDown onSearch s e = Except.ok (s, [])) := by
  constructor
  · intro h
    simp [handleKeyDown, h]
  · by_cases h : e.key = "Enter" <;> cases onSearch <;>
      simp [handleKeyDown, h, handleSearch, callOnSearch, Except.map]

/-- Witness for C10: a key-down with key `"a"` leaves the state
untouched and performs no invocation. -/
theorem keyDown_frame_conditions_check :
    (KeyboardEvent.mk "a").key ≠ "Enter" ∧
    handleKeyDown true (HeaderState.mk "foo" false) (KeyboardEvent.mk "a")
      = Except.ok (HeaderState.mk "foo" false, []) :=
  ⟨by decide,
    (keyDown_frame_conditions true (HeaderState.mk "foo" false)
      (KeyboardEvent.mk "a")).1 (by decide)⟩

end ItemsUI
